import Mathlib

/-!
Shallow embedding of `addons/print/models/print_printer.py` (the `print.printer`
Odoo model) and verification of its specification.

Modelling conventions:
* A recordset (`self`) is a `List Printer` of the records it holds.
* The environment `Env` carries the durable registry, the requesting user's
  personal default printer (`env.user.printer_id`), the host OS name
  (`os.name`), the result of `find_in_path('lpr')`, and the behaviour of a
  spawned `lpr` child process as a pure function from the argument vector and
  the piped document to `(returncode, captured merged output)`.
* `UserError` exceptions become constructors of `PrintError`; the formatted
  message of each exception is reproduced by `PrintError.message`.
* Machine integers (`copies`, process return codes) are Python `int`s, so they
  are modelled as `Int` with no overflow.
-/

/-- A `print.printer` record.  `queue` is an Odoo `Char` field, falsy when
empty; `barcode` likewise.  `id` is the database row id. -/
structure Printer where
  id : Nat
  name : String
  barcode : String
  queue : String
  is_default : Bool
deriving DecidableEq, Repr

/-- The `UserError`s raised by the module, as a structured taxonomy.  The
verbatim message of each is given by `PrintError.message`. -/
inductive PrintError where
  | NoPrinterConfigured
  | LprExecNotFound
  | SpoolFailure (exitCode : Int) (capturedOutput : String)
  | UnsupportedPlatform (osName : String)
  | PreconditionViolated
deriving DecidableEq, Repr

/-- The human-readable message of each error, as formatted by the source. -/
def PrintError.message : PrintError → String
  | .NoPrinterConfigured => "No default printer specified"
  | .LprExecNotFound => "Cannot find lpr executable"
  | .SpoolFailure rc out =>
      "lpr failed (error code: " ++ toString rc ++ "). Message: " ++ out
  | .UnsupportedPlatform os => "Cannot print on OS: " ++ os
  | .PreconditionViolated => "Expected singleton"

/-- Ambient state: the printer registry, the requesting user's personal
default printer (`env.user.printer_id`, `none` when unset), the host OS name,
the located `lpr` executable (`none` when `find_in_path` fails), and the
behaviour of a spawned child process. -/
structure Env where
  registry : List Printer
  userPrinterId : Option Printer
  osName : String
  lprExec : Option String
  run : List String → String → Int × String

/-- `_find_lpr_exec()`: locate the `lpr` executable, raising
`UserError("Cannot find lpr executable")` when `find_in_path` fails. -/
def findLprExec (env : Env) : Except PrintError String :=
  match env.lprExec with
  | some e => Except.ok e
  | none => Except.error PrintError.LprExecNotFound

/-- `self.search([('is_default', '=', True)])`: the registry rows flagged as
system default. -/
def searchDefaults (env : Env) : List Printer :=
  env.registry.filter (fun p => p.is_default)

/-- `Printer._printers`: `self or self.env.user.printer_id or
self.search([('is_default', '=', True)])`, raising
`UserError("No default printer specified")` when all three are falsy. -/
def printersOf (self : List Printer) (env : Env) : Except PrintError (List Printer) :=
  let printers :=
    if self ≠ [] then self
    else match env.userPrinterId with
      | some p => [p]
      | none => searchDefaults env
  if printers = [] then Except.error PrintError.NoPrinterConfigured
  else Except.ok printers

/-- The `lpr` argument vector built by `Printer._spool_lpr` for one printer:
`[lpr_exec]`, then `['-P', queue]` if `printer.queue` is truthy, then
`['-T', title]` if `title is not None`, then `['-#', str(copies)]` if
`copies > 1`. -/
def lprArgs (lprExec : String) (printer : Printer) (title : Option String)
    (copies : Int) : List String :=
  [lprExec]
    ++ (if printer.queue ≠ "" then ["-P", printer.queue] else [])
    ++ (match title with
        | some t => ["-T", t]
        | none => [])
    ++ (if copies > 1 then ["-#", toString copies] else [])

/-- Outcome of a spool operation: the argument vectors of the child processes
actually spawned (in order), and the overall result. -/
structure SpoolTrace where
  spawned : List (List String)
  result : Except PrintError Unit
deriving Repr

/-- The loop body of `Printer._spool_lpr`: for each resolved printer in order,
spawn `lpr` with the document piped to stdin and stdout/stderr merged; on a
non-zero return code raise `UserError` carrying the code and the captured
output, leaving the remaining printers unattempted. -/
def spoolLoop (env : Env) (lprExec : String) (document : String)
    (title : Option String) (copies : Int) : List Printer → SpoolTrace
  | [] => ⟨[], Except.ok ()⟩
  | printer :: rest =>
      let args := lprArgs lprExec printer title copies
      let r := env.run args document
      if r.1 ≠ 0 then
        ⟨[args], Except.error (PrintError.SpoolFailure r.1 r.2)⟩
      else
        let t := spoolLoop env lprExec document title copies rest
        ⟨args :: t.spawned, t.result⟩

/-- `Printer._spool_lpr(document, title=None, copies=1)`: locate `lpr` first,
then resolve the printers, then spool to each in order. -/
def spoolLpr (self : List Printer) (env : Env) (document : String)
    (title : Option String) (copies : Int) : SpoolTrace :=
  match findLprExec env with
  | Except.error e => ⟨[], Except.error e⟩
  | Except.ok lprExec =>
      match printersOf self env with
      | Except.error e => ⟨[], Except.error e⟩
      | Except.ok printers => spoolLoop env lprExec document title copies printers

/-- `Printer.spool(document, title=None, copies=1)`: on a POSIX host delegate
to `_spool_lpr` and return `True`; otherwise raise
`UserError("Cannot print on OS: %s" % os.name)`. -/
def spool (self : List Printer) (env : Env) (document : String)
    (title : Option String) (copies : Int) :
    List (List String) × Except PrintError Bool :=
  if env.osName = "posix" then
    let t := spoolLpr self env document title copies
    (t.spawned, t.result.map (fun _ => true))
  else
    ([], Except.error (PrintError.UnsupportedPlatform env.osName))

/-- Python's `str` of a list of ints, as used for `str(docids)`. -/
def pyStrIntList (xs : List Int) : String :=
  "[" ++ String.intercalate ", " (xs.map toString) ++ "]"

/-- A resolved `ir.actions.report` record: its display name and its rendering
function (`report.render(docids, data)[0]`). -/
structure Report where
  name : String
  render : List Int → Option String → String

/-- `Printer.spool_report` once the report record is resolved: render the
document, synthesize `"%s %s" % (report.name, str(docids))` as the title when
none was given, then delegate to `spool`. -/
def spoolReport (self : List Printer) (env : Env) (docids : List Int)
    (report : Report) (data : Option String) (title : Option String)
    (copies : Int) : List (List String) × Except PrintError Bool :=
  let document := report.render docids data
  let title' :=
    match title with
    | some t => some t
    | none => some (report.name ++ " " ++ pyStrIntList docids)
  spool self env document title' copies

/-- `Printer.set_user_default`: `ensure_one`, then assign
`self.env.user.printer_id = self`.  No printer record is touched. -/
def setUserDefault (self : List Printer) (env : Env) : Except PrintError Env :=
  match self with
  | [p] => Except.ok { env with userPrinterId := some p }
  | _ => Except.error PrintError.PreconditionViolated

/-- The registry after
`self.search([('is_default', '=', True)]).write({'is_default': False})`:
every row currently flagged default is cleared. -/
def clearDefaults (reg : List Printer) : List Printer :=
  reg.map (fun q => if q.is_default then { q with is_default := false } else q)

/-- The registry after `self.is_default = True`: the row of `self` (by id) is
flagged default. -/
def setDefaultFlag (reg : List Printer) (pid : Nat) : List Printer :=
  reg.map (fun q => if q.id = pid then { q with is_default := true } else q)

/-- `Printer.set_system_default`: `ensure_one`, clear the flag on whichever
rows currently hold it, then set it on the target. -/
def setSystemDefault (self : List Printer) (env : Env) : Except PrintError Env :=
  match self with
  | [p] => Except.ok { env with registry := setDefaultFlag (clearDefaults env.registry) p.id }
  | _ => Except.error PrintError.PreconditionViolated

/-- The storage-level invariant enforced by the `single_default` SQL exclusion
constraint: at most one registry row has `is_default = true`. -/
def atMostOneDefault (reg : List Printer) : Prop :=
  (reg.filter (fun p => p.is_default)).length ≤ 1

instance (reg : List Printer) : Decidable (atMostOneDefault reg) := by
  unfold atMostOneDefault; infer_instance

/-- Serialization of a sequence of `set_system_default` calls, each targeting
a single printer (errors leave the state unchanged). -/
def applyDefaults (reg : List Printer) (calls : List Printer) : List Printer :=
  calls.foldl (fun r p => setDefaultFlag (clearDefaults r) p.id) reg

/-! ### Concrete fixtures used by witnesses and counterexamples -/

/-- A printer named on a non-empty queue, not the system default. -/
def printerA : Printer := ⟨1, "PrinterA", "BC1", "officeA", false⟩

/-- A queueless printer flagged as the system default. -/
def printerB : Printer := ⟨2, "PrinterB", "BC2", "", true⟩

/-- A child process that always succeeds silently. -/
def runOk : List String → String → Int × String := fun _ _ => (0, "")

/-- A child process that always fails with exit status 1 and a diagnostic. -/
def runPaperOut : List String → String → Int × String := fun _ _ => (1, "out of paper")

/-- A POSIX host with `lpr` available, `printerB` registered as the system
default, no personal default, and a succeeding spooler. -/
def envBase : Env := ⟨[printerB], none, "posix", some "lpr", runOk⟩

/-- `envBase` with a spooler that always fails with status 1 and
"out of paper". -/
def envPaperOut : Env := { envBase with run := runPaperOut }

/-! ### Theorems -/

/-- C1: `_printers` returns the explicit candidate set verbatim when
non-empty; otherwise the requester's personal default printer alone
(bypassing the system default, whatever the registry holds); otherwise the
printers flagged `is_default`; and when all three tiers are empty it fails
with the `NoPrinterConfigured` error rather than returning an empty list. -/
theorem printers_resolution_policy (self : List Printer) (env : Env) :
    (self ≠ [] → printersOf self env = Except.ok self) ∧
    (∀ p, self = [] → env.userPrinterId = some p →
      printersOf self env = Except.ok [p]) ∧
    (self = [] → env.userPrinterId = none → searchDefaults env ≠ [] →
      printersOf self env = Except.ok (searchDefaults env)) ∧
    (self = [] → env.userPrinterId = none → searchDefaults env = [] →
      printersOf self env = Except.error PrintError.NoPrinterConfigured) := by
  refine ⟨?_, ?_, ?_, ?_⟩
  · intro h
    simp [printersOf, h]
  · intro p h hp
    simp [printersOf, h, hp]
  · intro h hp hd
    simp [printersOf, h, hp, hd]
  · intro h hp hd
    simp [printersOf, h, hp, hd]

/-- C1 witness: with an empty explicit set and `printerA` as the personal
default, resolution returns exactly `printerA`, bypassing the registered
system default `printerB`. -/
theorem printers_resolution_policy_witness :
    printersOf [] { envBase with userPrinterId := some printerA } =
      Except.ok [printerA] :=
  (printers_resolution_policy [] _).2.1 printerA rfl rfl

/-- C9: `set_user_default` requires exactly one target printer, and its only
state change is overwriting the requester's personal-default reference to the
target: the registry (every `Printer` record) and all other environment
fields are untouched. -/
theorem set_user_default_frame (self : List Printer) (env : Env) :
    (self.length ≠ 1 →
      setUserDefault self env = Except.error PrintError.PreconditionViolated) ∧
    (∀ p env', self = [p] → setUserDefault self env = Except.ok env' →
      env'.registry = env.registry ∧ env'.userPrinterId = some p ∧
      env'.osName = env.osName ∧ env'.lprExec = env.lprExec ∧
      env'.run = env.run) := by
  constructor
  · intro h
    match self, h with
    | [], _ => rfl
    | _ :: _ :: _, _ => rfl
    | [p], h => exact absurd rfl h
  · rintro p env' rfl h
    cases h
    exact ⟨rfl, rfl, rfl, rfl, rfl⟩

/-- C9 witness: setting `printerA` as user default on `envBase` overwrites
the personal-default reference and leaves the registry as it was. -/
theorem set_user_default_frame_witness :
    ({ envBase with userPrinterId := some printerA } : Env).registry =
        envBase.registry ∧
      ({ envBase with userPrinterId := some printerA } : Env).userPrinterId =
        some printerA :=
  ⟨((set_user_default_frame [printerA] envBase).2 printerA _ rfl rfl).1,
   ((set_user_default_frame [printerA] envBase).2 printerA _ rfl rfl).2.1⟩

/-- C10: `_spool_lpr` locates the `lpr` executable before resolving printers,
so on a POSIX host with no `lpr` on the search path `spool` fails with the
"Cannot find lpr executable" error — for every candidate set and registry,
including ones where resolution would fail with `NoPrinterConfigured` — and
spawns nothing. -/
theorem spool_locates_lpr_before_resolution (self : List Printer) (env : Env)
    (document : String) (title : Option String) (copies : Int)
    (hos : env.osName = "posix") (hlpr : env.lprExec = none) :
    spool self env document title copies =
      ([], Except.error PrintError.LprExecNotFound) ∧
    PrintError.LprExecNotFound.message = "Cannot find lpr executable" := by
  refine ⟨?_, rfl⟩
  simp [spool, hos, spoolLpr, findLprExec, hlpr, Except.map]

/-- C10 witness: on a POSIX host with no `lpr` and an entirely empty printer
configuration, the failure is still the executable error, not
`NoPrinterConfigured`. -/
theorem spool_locates_lpr_before_resolution_witness :
    spool [] { envBase with registry := [], lprExec := none } "doc" none 1 =
      ([], Except.error PrintError.LprExecNotFound) :=
  (spool_locates_lpr_before_resolution [] _ "doc" none 1 rfl rfl).1

/-- C3: on a POSIX host, when the spawned print command exits non-zero the
operation fails with `SpoolFailure` carrying that exact exit code and the
captured merged output verbatim (also reproduced in the error message); on
zero exit the operation reports success and the captured output is
discarded. -/
theorem spool_failure_captures_exit_and_output (self : List Printer)
    (env : Env) (document : String) (title : Option String) (copies : Int)
    (lprExec : String) (p : Printer) (rc : Int) (out : String)
    (hos : env.osName = "posix") (hlpr : env.lprExec = some lprExec)
    (hres : printersOf self env = Except.ok [p])
    (hrun : env.run (lprArgs lprExec p title copies) document = (rc, out)) :
    (rc ≠ 0 →
      (spool self env document title copies).2 =
        Except.error (PrintError.SpoolFailure rc out) ∧
      (PrintError.SpoolFailure rc out).message =
        "lpr failed (error code: " ++ toString rc ++ "). Message: " ++ out) ∧
    (rc = 0 →
      spool self env document title copies =
        ([lprArgs lprExec p title copies], Except.ok true)) := by
  constructor
  · intro hrc
    refine ⟨?_, rfl⟩
    simp [spool, hos, spoolLpr, findLprExec, hlpr, hres, spoolLoop, hrun, hrc,
      Except.map]
  · intro hrc
    simp [spool, hos, spoolLpr, findLprExec, hlpr, hres, spoolLoop, hrun, hrc,
      Except.map]

/-- C3 witness: a simulated command exiting with status 1 and output
"out of paper" makes `spool` fail with `SpoolFailure 1 "out of paper"`. -/
theorem spool_failure_captures_exit_and_output_witness :
    (spool [printerA] envPaperOut "doc" none 1).2 =
      Except.error (PrintError.SpoolFailure 1 "out of paper") :=
  ((spool_failure_captures_exit_and_output [printerA] envPaperOut "doc" none 1
      "lpr" printerA 1 "out of paper" rfl rfl (by simp [printersOf]) rfl).1
    (by decide)).1

/-- The spool loop attempts printers strictly in order and stops at the first
failure: exactly one process is spawned per successful prefix printer plus
one for the failing printer, the failing printer's error is raised, and no
process is spawned for any later printer. -/
lemma spoolLoop_fail_fast (env : Env) (lprExec document : String)
    (title : Option String) (copies : Int) (pre : List Printer) (pf : Printer)
    (post : List Printer) (rc : Int) (out : String)
    (hpre : ∀ p ∈ pre, (env.run (lprArgs lprExec p title copies) document).1 = 0)
    (hf : env.run (lprArgs lprExec pf title copies) document = (rc, out))
    (hrc : rc ≠ 0) :
    spoolLoop env lprExec document title copies (pre ++ pf :: post) =
      ⟨(pre.map fun p => lprArgs lprExec p title copies) ++
         [lprArgs lprExec pf title copies],
       Except.error (PrintError.SpoolFailure rc out)⟩ := by
  induction pre with
  | nil => simp [spoolLoop, hf, hrc]
  | cons p ps ih =>
      have hp := hpre p (List.mem_cons_self _ _)
      have hrest : ∀ q ∈ ps,
          (env.run (lprArgs lprExec q title copies) document).1 = 0 :=
        fun q hq => hpre q (List.mem_cons_of_mem _ hq)
      simp [spoolLoop, hp, ih hrest]

/-- C5: when the resolved printers are a successful prefix, a failing
printer, then arbitrary later printers, `spool` spawns one process per
prefix printer and one for the failing printer, raises that printer's
`SpoolFailure` immediately, and spawns nothing for the later printers (the
spawned list does not depend on them). -/
theorem spool_fail_fast (self : List Printer) (env : Env) (document : String)
    (title : Option String) (copies : Int) (lprExec : String)
    (pre : List Printer) (pf : Printer) (post : List Printer) (rc : Int)
    (out : String)
    (hos : env.osName = "posix") (hlpr : env.lprExec = some lprExec)
    (hres : printersOf self env = Except.ok (pre ++ pf :: post))
    (hpre : ∀ p ∈ pre, (env.run (lprArgs lprExec p title copies) document).1 = 0)
    (hf : env.run (lprArgs lprExec pf title copies) document = (rc, out))
    (hrc : rc ≠ 0) :
    spool self env document title copies =
      ((pre.map fun p => lprArgs lprExec p title copies) ++
         [lprArgs lprExec pf title copies],
       Except.error (PrintError.SpoolFailure rc out)) := by
  simp [spool, hos, spoolLpr, findLprExec, hlpr, hres, Except.map,
    spoolLoop_fail_fast env lprExec document title copies pre pf post rc out
      hpre hf hrc]

/-- C5 witness: with two explicit printers and a spooler that fails on the
first, only one process is spawned (for `printerA`), its failure is raised,
and `printerB` is never attempted. -/
theorem spool_fail_fast_witness :
    spool [printerA, printerB] envPaperOut "doc" none 1 =
      ([["lpr", "-P", "officeA"]],
       Except.error (PrintError.SpoolFailure 1 "out of paper")) := by
  have h := spool_fail_fast [printerA, printerB] envPaperOut "doc" none 1
    "lpr" [] printerA [printerB] 1 "out of paper" rfl rfl
    (by simp [printersOf]) (by simp) rfl (by decide)
  simpa [lprArgs, printerA] using h

/-- C4 counterexample: a spool request with `copies = 0` does not fail with
`PreconditionViolated`: a child process is spawned (with the copy-count flag
simply omitted) and the operation succeeds. -/
theorem spool_copies_zero_counterexample :
    spool [printerA] envBase "doc" none 0 =
      ([["lpr", "-P", "officeA"]], Except.ok true) ∧
    (spool [printerA] envBase "doc" none 0).2 ≠
      Except.error PrintError.PreconditionViolated ∧
    (spool [printerA] envBase "doc" none 0).1 ≠ [] := by
  have h : spool [printerA] envBase "doc" none 0 =
      ([["lpr", "-P", "officeA"]], Except.ok true) := rfl
  refine ⟨h, ?_, ?_⟩
  · rw [h]
    simp
  · rw [h]
    simp

/-- The argument vector does not depend on the exact copy count when neither
count exceeds one. -/
lemma lprArgs_copies_le_one (lprExec : String) (printer : Printer)
    (title : Option String) (c₁ c₂ : Int) (h₁ : ¬1 < c₁) (h₂ : ¬1 < c₂) :
    lprArgs lprExec printer title c₁ = lprArgs lprExec printer title c₂ := by
  simp [lprArgs, h₁, h₂]

/-- The spool loop behaves identically for any two copy counts of at most
one. -/
lemma spoolLoop_copies_le_one (env : Env) (lprExec document : String)
    (title : Option String) (c₁ c₂ : Int) (h₁ : ¬1 < c₁) (h₂ : ¬1 < c₂) :
    ∀ ps, spoolLoop env lprExec document title c₁ ps =
      spoolLoop env lprExec document title c₂ ps
  | [] => rfl
  | p :: rest => by
      simp [spoolLoop, lprArgs_copies_le_one lprExec p title c₁ c₂ h₁ h₂,
        spoolLoop_copies_le_one env lprExec document title c₁ c₂ h₁ h₂ rest]

/-- C4 amended: there is no copy-count precondition check; a request with
`copies ≤ 0` behaves exactly like a single-copy request. -/
theorem spool_copies_nonpositive_treated_as_single (self : List Printer)
    (env : Env) (document : String) (title : Option String) (copies : Int)
    (h : copies ≤ 0) :
    spool self env document title copies =
      spool self env document title 1 := by
  have h₁ : ¬(1 : Int) < copies := by omega
  have h₂ : ¬(1 : Int) < 1 := by omega
  have hlpr : spoolLpr self env document title copies =
      spoolLpr self env document title 1 := by
    cases hfe : findLprExec env with
    | error e => simp [spoolLpr, hfe]
    | ok lx =>
        cases hps : printersOf self env with
        | error e => simp [spoolLpr, hfe, hps]
        | ok ps =>
            simp [spoolLpr, hfe, hps,
              spoolLoop_copies_le_one env lx document title copies 1 h₁ h₂ ps]
  simp [spool, hlpr]

/-- C4 amended witness: `copies = -2` spools exactly like `copies = 1`. -/
theorem spool_copies_nonpositive_treated_as_single_witness :
    spool [printerA] envBase "doc" none (-2) =
      spool [printerA] envBase "doc" none 1 :=
  spool_copies_nonpositive_treated_as_single [printerA] envBase "doc" none
    (-2) (by decide)

/-- Clearing every default and then flagging the target row composes to a
single rewrite deciding each row's flag by its id. -/
lemma set_clear_eq (reg : List Printer) (pid : Nat) :
    setDefaultFlag (clearDefaults reg) pid =
      reg.map (fun q => { q with is_default := q.id == pid }) := by
  simp only [setDefaultFlag, clearDefaults, List.map_map]
  apply List.map_congr_left
  intro q _
  obtain ⟨i, n, b, qu, d⟩ := q
  by_cases hid : i = pid <;> cases d <;> simp [hid, Function.comp]

/-- Row ids are untouched by the clear-then-set rewrite. -/
lemma ids_set_clear (reg : List Printer) (pid : Nat) :
    (setDefaultFlag (clearDefaults reg) pid).map (fun p => p.id) =
      reg.map (fun p => p.id) := by
  rw [set_clear_eq]
  simp [List.map_map, Function.comp]

/-- After clear-then-set, the rows flagged default are exactly the rows whose
id is the target id. -/
lemma defaults_after_set (reg : List Printer) (pid : Nat) :
    ((setDefaultFlag (clearDefaults reg) pid).filter
        (fun p => p.is_default)).map (fun p => p.id) =
      (reg.map (fun p => p.id)).filter (fun i => i == pid) := by
  rw [set_clear_eq]
  simp [List.filter_map, Function.comp_def]

/-- In a duplicate-free id list, filtering for a present id yields exactly
that id once. -/
lemma filter_eq_of_nodup (l : List Nat) (x : Nat) (hnd : l.Nodup)
    (ha : x ∈ l) : l.filter (fun i => i == x) = [x] := by
  induction l with
  | nil => cases ha
  | cons b bs ih =>
      rcases List.mem_cons.mp ha with h1 | hmem
      · subst h1
        have hnotin := (List.nodup_cons.mp hnd).1
        have hnil : bs.filter (fun i => i == x) = [] := by
          apply List.filter_eq_nil_iff.mpr
          intro y hy
          simp only [beq_iff_eq]
          rintro rfl
          exact hnotin hy
        simp [List.filter_cons, hnil]
      · have hne : ¬b = x := by
          rintro rfl
          exact (List.nodup_cons.mp hnd).1 hmem
        have hrest := ih (List.nodup_cons.mp hnd).2 hmem
        simp [List.filter_cons, hne, hrest]

/-- In a duplicate-free id list, filtering for any id yields at most one
element. -/
lemma filter_length_le_one (l : List Nat) (x : Nat) (hnd : l.Nodup) :
    (l.filter (fun i => i == x)).length ≤ 1 := by
  by_cases ha : x ∈ l
  · rw [filter_eq_of_nodup l x hnd ha]
    exact le_refl 1
  · have hnil : l.filter (fun i => i == x) = [] := by
      apply List.filter_eq_nil_iff.mpr
      intro y hy
      simp only [beq_iff_eq]
      rintro rfl
      exact ha hy
    simp [hnil]

/-- One clear-then-set step always leaves at most one row flagged default. -/
lemma step_at_most_one (reg : List Printer) (pid : Nat)
    (hnd : (reg.map (fun p => p.id)).Nodup) :
    atMostOneDefault (setDefaultFlag (clearDefaults reg) pid) := by
  unfold atMostOneDefault
  have hlen := congrArg List.length (defaults_after_set reg pid)
  rw [List.length_map] at hlen
  rw [hlen]
  exact filter_length_le_one _ _ hnd

/-- Any serialized sequence of clear-then-set steps preserves the at-most-one
invariant. -/
lemma applyDefaults_at_most_one (calls : List Printer) :
    ∀ reg : List Printer, (reg.map (fun p => p.id)).Nodup →
      atMostOneDefault reg → atMostOneDefault (applyDefaults reg calls) := by
  induction calls with
  | nil =>
      intro reg _ h
      exact h
  | cons c cs ih =>
      intro reg hnd h
      have hnd' : ((setDefaultFlag (clearDefaults reg) c.id).map
          (fun p => p.id)).Nodup := by
        rw [ids_set_clear]
        exact hnd
      exact ih _ hnd' (step_at_most_one reg c.id hnd)

/-- C7: `set_system_default` requires exactly one target; the intermediate
state (after the clearing write, before the setting write) flags no printer
at all, so at no point are two printers simultaneously flagged; a successful
call leaves the target as the unique system default; and after any
serialized sequence of calls at most one printer is flagged default. -/
theorem set_system_default_exclusivity (self : List Printer) (env : Env)
    (hnd : (env.registry.map (fun p => p.id)).Nodup) :
    (self.length ≠ 1 →
      setSystemDefault self env = Except.error PrintError.PreconditionViolated) ∧
    ((clearDefaults env.registry).filter (fun p => p.is_default) = []) ∧
    (∀ p env', setSystemDefault [p] env = Except.ok env' →
      atMostOneDefault env'.registry ∧
      (p.id ∈ env.registry.map (fun q => q.id) →
        (env'.registry.filter (fun q => q.is_default)).map (fun q => q.id) =
          [p.id])) ∧
    (∀ calls, atMostOneDefault env.registry →
      atMostOneDefault (applyDefaults env.registry calls)) := by
  refine ⟨?_, ?_, ?_, fun calls h => applyDefaults_at_most_one calls _ hnd h⟩
  · intro h
    match self, h with
    | [], _ => rfl
    | _ :: _ :: _, _ => rfl
    | [p], h => exact absurd rfl h
  · apply List.filter_eq_nil_iff.mpr
    intro x hx
    simp only [clearDefaults, List.mem_map] at hx
    obtain ⟨q, _, rfl⟩ := hx
    by_cases hd : q.is_default <;> simp [hd]
  · intro p env' h
    have henv : env' = { env with
        registry := setDefaultFlag (clearDefaults env.registry) p.id } := by
      simpa [setSystemDefault] using h.symm
    subst henv
    refine ⟨step_at_most_one env.registry p.id hnd, ?_⟩
    intro hmem
    show ((setDefaultFlag (clearDefaults env.registry) p.id).filter
        (fun q => q.is_default)).map (fun q => q.id) = [p.id]
    rw [defaults_after_set]
    exact filter_eq_of_nodup _ _ hnd hmem

/-- C7 witness: on a registry holding `printerB` (the current default, id 2)
and `printerA` (id 1), setting `printerA` as system default leaves `printerA`
as the unique flagged printer. -/
theorem set_system_default_exclusivity_witness :
    atMostOneDefault
      (setDefaultFlag (clearDefaults [printerB, printerA]) printerA.id) ∧
    ((setDefaultFlag (clearDefaults [printerB, printerA]) printerA.id).filter
        (fun q => q.is_default)).map (fun q => q.id) = [printerA.id] := by
  have h := (set_system_default_exclusivity [printerA]
      { envBase with registry := [printerB, printerA] } (by decide)).2.2.1
      printerA
      { envBase with
        registry := setDefaultFlag (clearDefaults [printerB, printerA])
          printerA.id }
      rfl
  exact ⟨h.1, h.2 (by decide)⟩

/-- C8: `spool_report` with no explicit title delegates to `spool` with a
synthesized title in which both the report's display name and the rendered
identifier list appear as substrings; an explicit title is passed through to
`spool` unchanged. -/
theorem spool_report_title_synthesis (self : List Printer) (env : Env)
    (docids : List Int) (report : Report) (data : Option String)
    (copies : Int) :
    (∃ t, spoolReport self env docids report data none copies =
        spool self env (report.render docids data) (some t) copies ∧
        (∃ a b, t.data = a ++ report.name.data ++ b) ∧
        (∃ a b, t.data = a ++ (pyStrIntList docids).data ++ b)) ∧
    (∀ t0, spoolReport self env docids report data (some t0) copies =
        spool self env (report.render docids data) (some t0) copies) := by
  constructor
  · refine ⟨report.name ++ " " ++ pyStrIntList docids, rfl,
      ⟨[], (" " ++ pyStrIntList docids).data, ?_⟩,
      ⟨(report.name ++ " ").data, [], ?_⟩⟩
    · simp
    · simp
  · intro t0
    rfl

/-- C8 witness: spooling the report "Delivery Slip" for ids `[5, 7]` with no
title synthesizes the title "Delivery Slip [5, 7]", containing both. -/
theorem spool_report_title_synthesis_witness :
    ∃ t, spoolReport [printerA] envBase [5, 7]
        ⟨"Delivery Slip", fun _ _ => "doc"⟩ none none 1 =
      spool [printerA] envBase "doc" (some t) 1 ∧
      (∃ a b, t.data = a ++ ("Delivery Slip").data ++ b) ∧
      (∃ a b, t.data = a ++ (pyStrIntList [5, 7]).data ++ b) :=
  (spool_report_title_synthesis [printerA] envBase [5, 7]
    ⟨"Delivery Slip", fun _ _ => "doc"⟩ none 1).1

/-- C6: on a non-POSIX host `spool` fails immediately with
`UnsupportedPlatform` naming the detected platform: no process is spawned and
the outcome does not depend on the registry or the personal default (no
resolution is consulted).  On a POSIX host it delegates to the `lpr`
transport and returns `true` when that transport succeeds. -/
theorem spool_platform_gate (self : List Printer) (env : Env)
    (document : String) (title : Option String) (copies : Int) :
    (env.osName ≠ "posix" →
      spool self env document title copies =
          ([], Except.error (PrintError.UnsupportedPlatform env.osName)) ∧
        (PrintError.UnsupportedPlatform env.osName).message =
          "Cannot print on OS: " ++ env.osName ∧
        ∀ reg upid lpr r,
          spool self { env with registry := reg, userPrinterId := upid,
                                lprExec := lpr, run := r } document title copies =
            spool self env document title copies) ∧
    (env.osName = "posix" →
      (spoolLpr self env document title copies).result = Except.ok () →
      (spool self env document title copies).2 = Except.ok true) := by
  constructor
  · intro h
    refine ⟨?_, rfl, ?_⟩
    · simp [spool, h]
    · intro reg upid lpr r
      simp [spool, h]
  · intro h hok
    simp [spool, h, hok, Except.map]

/-- Characterization of membership in a constructed `lpr` argument vector. -/
lemma mem_lprArgs (s lprExec : String) (printer : Printer)
    (title : Option String) (copies : Int) :
    s ∈ lprArgs lprExec printer title copies ↔
      s = lprExec ∨
      (printer.queue ≠ "" ∧ (s = "-P" ∨ s = printer.queue)) ∨
      (∃ t, title = some t ∧ (s = "-T" ∨ s = t)) ∨
      (1 < copies ∧ (s = "-#" ∨ s = toString copies)) := by
  by_cases hq : printer.queue = "" <;> rcases title with _ | t <;>
    by_cases hc : 1 < copies <;>
    simp [lprArgs, hq, hc] <;> tauto

/-- When the queue is non-empty, `-P queue` appears contiguously in the
argument vector. -/
lemma queue_flag_infix (lprExec : String) (printer : Printer)
    (title : Option String) (copies : Int) (hne : printer.queue ≠ "") :
    ["-P", printer.queue] <:+: lprArgs lprExec printer title copies := by
  rcases title with _ | t <;> by_cases hc : (1 : Int) < copies
  · exact ⟨[lprExec], ["-#", toString copies], by simp [lprArgs, hne, hc]⟩
  · exact ⟨[lprExec], [], by simp [lprArgs, hne, hc]⟩
  · exact ⟨[lprExec], ["-T", t, "-#", toString copies], by simp [lprArgs, hne, hc]⟩
  · exact ⟨[lprExec], ["-T", t], by simp [lprArgs, hne, hc]⟩

/-- When a title is provided, `-T title` appears contiguously in the
argument vector. -/
lemma title_flag_infix (lprExec : String) (printer : Printer) (t : String)
    (copies : Int) :
    ["-T", t] <:+: lprArgs lprExec printer (some t) copies := by
  by_cases hq : printer.queue = "" <;> by_cases hc : (1 : Int) < copies
  · exact ⟨[lprExec], ["-#", toString copies], by simp [lprArgs, hq, hc]⟩
  · exact ⟨[lprExec], [], by simp [lprArgs, hq, hc]⟩
  · exact ⟨[lprExec, "-P", printer.queue], ["-#", toString copies],
      by simp [lprArgs, hq, hc]⟩
  · exact ⟨[lprExec, "-P", printer.queue], [], by simp [lprArgs, hq, hc]⟩

/-- When `copies > 1`, `-# copies` appears contiguously at the end of the
argument vector. -/
lemma copies_flag_infix (lprExec : String) (printer : Printer)
    (title : Option String) (copies : Int) (hc : 1 < copies) :
    ["-#", toString copies] <:+: lprArgs lprExec printer title copies := by
  rcases title with _ | t <;> by_cases hq : printer.queue = ""
  · exact ⟨[lprExec], [], by simp [lprArgs, hq, hc]⟩
  · exact ⟨[lprExec, "-P", printer.queue], [], by simp [lprArgs, hq, hc]⟩
  · exact ⟨[lprExec, "-T", t], [], by simp [lprArgs, hq, hc]⟩
  · exact ⟨[lprExec, "-P", printer.queue, "-T", t], [],
      by simp [lprArgs, hq, hc]⟩

/-- C2: the constructed `lpr` invocation contains the queue-selection flag
`-P queue` iff the printer's queue field is non-empty, the title flag
`-T title` iff a title was provided, and the copy-count flag `-# copies` iff
`copies > 1` (the hypotheses only rule out an argument value that itself
collides with one of the literal flag strings). -/
theorem lpr_invocation_flags (lprExec : String) (printer : Printer)
    (title : Option String) (copies : Int)
    (hexec : lprExec ∉ ["-P", "-T", "-#"])
    (hqueue : printer.queue ∉ ["-P", "-T", "-#"])
    (htitle : ∀ t, title = some t → t ∉ ["-P", "-T", "-#"])
    (hcopies : toString copies ∉ ["-P", "-T", "-#"]) :
    ("-P" ∈ lprArgs lprExec printer title copies ↔ printer.queue ≠ "") ∧
    (printer.queue ≠ "" →
      ["-P", printer.queue] <:+: lprArgs lprExec printer title copies) ∧
    ("-T" ∈ lprArgs lprExec printer title copies ↔ title ≠ none) ∧
    (∀ t, title = some t →
      ["-T", t] <:+: lprArgs lprExec printer title copies) ∧
    ("-#" ∈ lprArgs lprExec printer title copies ↔ 1 < copies) ∧
    (1 < copies →
      ["-#", toString copies] <:+: lprArgs lprExec printer title copies) := by
  obtain ⟨he1, he2, he3⟩ :
      ¬lprExec = "-P" ∧ ¬lprExec = "-T" ∧ ¬lprExec = "-#" := by
    simpa using hexec
  obtain ⟨hq1, hq2, hq3⟩ :
      ¬printer.queue = "-P" ∧ ¬printer.queue = "-T" ∧ ¬printer.queue = "-#" := by
    simpa using hqueue
  obtain ⟨hn1, hn2, hn3⟩ :
      ¬toString copies = "-P" ∧ ¬toString copies = "-T" ∧
        ¬toString copies = "-#" := by
    simpa using hcopies
  refine ⟨?_, fun hne => queue_flag_infix lprExec printer title copies hne, ?_,
    ?_, ?_, fun hc => copies_flag_infix lprExec printer title copies hc⟩
  · rw [mem_lprArgs]
    constructor
    · rintro (h | ⟨hne, -⟩ | ⟨t, ht, h | h⟩ | ⟨-, h | h⟩)
      · exact absurd h.symm he1
      · exact hne
      · exact absurd h (by decide)
      · have ht3 := htitle t ht
        simp at ht3
        exact absurd h.symm ht3.1
      · exact absurd h (by decide)
      · exact absurd h.symm hn1
    · intro hne
      exact Or.inr (Or.inl ⟨hne, Or.inl rfl⟩)
  · rw [mem_lprArgs]
    constructor
    · rintro (h | ⟨-, h | h⟩ | ⟨t, ht, - | h⟩ | ⟨-, h | h⟩)
      · exact absurd h.symm he2
      · exact absurd h (by decide)
      · exact absurd h.symm hq2
      · simp [ht]
      · have ht3 := htitle t ht
        simp at ht3
        exact absurd h.symm ht3.2.1
      · exact absurd h (by decide)
      · exact absurd h.symm hn2
    · intro hne
      rcases title with _ | t
      · exact absurd rfl hne
      · exact Or.inr (Or.inr (Or.inl ⟨t, rfl, Or.inl rfl⟩))
  · intro t ht
    subst ht
    exact title_flag_infix lprExec printer t copies
  · rw [mem_lprArgs]
    constructor
    · rintro (h | ⟨-, h | h⟩ | ⟨t, ht, h | h⟩ | ⟨hc, -⟩)
      · exact absurd h.symm he3
      · exact absurd h (by decide)
      · exact absurd h.symm hq3
      · exact absurd h (by decide)
      · have ht3 := htitle t ht
        simp at ht3
        exact absurd h.symm ht3.2.2
      · exact hc
    · intro hc
      exact Or.inr (Or.inr (Or.inr ⟨hc, Or.inl rfl⟩))

/-- C2 witness: with queue "officeA" and `copies = 3` the invocation carries
both `-P officeA` and `-# 3`; with `copies = 1` the copy-count flag is
absent. -/
theorem lpr_invocation_flags_witness :
    (["-P", "officeA"] <:+: lprArgs "lpr" printerA none 3) ∧
    (["-#", "3"] <:+: lprArgs "lpr" printerA none 3) ∧
    ¬("-#" ∈ lprArgs "lpr" printerA none 1) := by
  have h3 := lpr_invocation_flags "lpr" printerA none 3
    (by decide) (by decide) (by intro t ht; cases ht) (by decide)
  have h1 := lpr_invocation_flags "lpr" printerA none 1
    (by decide) (by decide) (by intro t ht; cases ht) (by decide)
  refine ⟨h3.2.1 (by decide), ?_, ?_⟩
  · have := h3.2.2.2.2.2 (by decide)
    simpa using this
  · intro hmem
    have := h1.2.2.2.2.1.mp hmem
    exact absurd this (by decide)

/-- C6 witness: on a host reporting `os.name = "nt"` the spool call fails
with the platform error naming "nt" and spawns nothing. -/
theorem spool_platform_gate_witness :
    spool [printerA] { envBase with osName := "nt" } "doc" none 1 =
      ([], Except.error (PrintError.UnsupportedPlatform "nt")) :=
  ((spool_platform_gate [printerA] { envBase with osName := "nt" }
    "doc" none 1).1 (by decide)).1
